import Mathlib

/-!
Shallow embedding of the adaptive speed-measurement engine in
`speedtest/request.go` (package `speedtest`), together with proofs of the
specification's claims about it.

Modelling conventions:
* Go `float64` values (speeds, seconds) are modelled as `ℚ`; all the engine's
  float operations are `+ - * / <`, which `ℚ` reproduces exactly on the
  rational inputs used here.
* Go `int64` / `time.Duration` values are modelled as `ℤ` (nanoseconds for
  durations); Go's truncating integer division is `Int.tdiv`.
* The network is abstracted as an environment: the wall-clock span of the
  warm-up burst, the outcome (bytes transferred, failed-or-not) of each
  main-phase transfer task, and the elapsed seconds of the main phase are
  inputs.  Everything the engine computes from them follows the source
  line by line.
-/

namespace Speedtest

/-- Errors returned by transfers; the engine only passes them through. -/
abbrev Err := String

/-- The protocol kind of a server (`ServerType` in the source): speedtest.net
classic servers vs librespeed (lightweight) servers. -/
inductive ServerType
  | SpeedtestServer
  | LibrespeedServer
deriving DecidableEq, Repr

/-- The fields of the `Server` descriptor that `request.go` reads and writes:
base URL, protocol kind (`Type` in Go, renamed since `Type` is a Lean
keyword), `Latency` (a `time.Duration`, int64 nanoseconds), and the two
speed results in Mbps. -/
structure Server where
  URL : String
  SType : ServerType
  Latency : ℤ
  DLSpeed : ℚ
  ULSpeed : ℚ
deriving DecidableEq, Repr

/-- Download sizes: the speedtest.net jpg suffixes (`dlSuffixes` in the source). -/
def dlSuffixes : List ℤ := [350, 500, 750, 1000, 1500, 2000, 2500, 3000, 3500, 4000]

/-- Upload payload sizes in kB (`ulSuffixes` in the source). -/
def ulSuffixes : List ℤ := [100, 300, 500, 800, 1000, 1500, 2500, 3000, 3500, 4000]

/-- Overhead compensation factor - 4% (`compensationFactor` in the source). -/
def compensationFactor : ℚ := 1.04

/-- Payload size in megabytes for a given suffix (`suffixToMB` in the source). -/
def suffixToMB (serverType : ServerType) (suffix : ℤ) : ℚ :=
  if serverType = ServerType.LibrespeedServer then
    (suffix : ℚ)
  else
    (suffix : ℚ) * (suffix : ℚ) * 2 / 1000 / 1000

/-- The `streams`/`weight`/`skip` variables as they stand after the
stream-selection `if` chain of either test. -/
structure Selection where
  streams : ℤ
  weight : ℕ
  skip : Bool
deriving DecidableEq, Repr

/-- The download stream-selection chain (`downloadTestContext`, the
`if savingMode ... else if 50.0 < wuSpeed ...` ladder).  In the final `else`
branch only `skip` is set; `streams` keeps its warm-up value 10 and `weight`
its initial value 0. -/
def dlDecide (savingMode : Bool) (wuSpeed : ℚ) : Selection :=
  if savingMode then ⟨6, 3, false⟩
  else if 50 < wuSpeed then ⟨32, 6, false⟩
  else if 10 < wuSpeed then ⟨16, 4, false⟩
  else if 4 < wuSpeed then ⟨8, 4, false⟩
  else if 2.5 < wuSpeed then ⟨4, 4, false⟩
  else ⟨10, 0, true⟩

/-- The upload stream-selection chain (`uploadTestContext`).  In the final
`else` branch `streams` keeps its warm-up value 2 and `weight` stays 0. -/
def ulDecide (savingMode : Bool) (wuSpeed : ℚ) : Selection :=
  if savingMode then ⟨1, 7, false⟩
  else if 50 < wuSpeed then ⟨40, 9, false⟩
  else if 10 < wuSpeed then ⟨16, 9, false⟩
  else if 4 < wuSpeed then ⟨8, 9, false⟩
  else if 2.5 < wuSpeed then ⟨4, 5, false⟩
  else ⟨2, 0, true⟩

/-- Outcome of one main-phase transfer task: how many bytes its progress
callback reported into the shared counter, and whether it returned an error. -/
structure TaskOutcome where
  bytes : ℕ
  failed : Bool
deriving DecidableEq, Repr

/-- Value of the shared atomic byte counter after the join barrier: the sum of
all tasks' reported bytes (tasks contribute their bytes whether or not they
later fail; a failed task may have reported 0 or more bytes). -/
def totalTransferred (tasks : List TaskOutcome) : ℕ :=
  (tasks.map TaskOutcome.bytes).sum

/-- The main-phase speed formula of both tests:
`float64(totalBytes.Load()/1024/1024) * compensationFactor * 8 / fTime.Sub(sTime).Seconds()`.
`totalBytes.Load()/1024/1024` is Go int64 division, i.e. truncating; on the
non-negative counter it is Nat floor division. -/
def mainSpeed (totalBytes : ℕ) (elapsedSeconds : ℚ) : ℚ :=
  ((totalBytes / 1024 / 1024 : ℕ) : ℚ) * compensationFactor * 8 / elapsedSeconds

/-- Modelled from the spec's words, for comparison with `mainSpeed`:
"Final speed = `(totalBytes / 1MB) × compensationFactor(1.04) × 8 /
actualElapsedSeconds`" with `totalBytes / 1MB` read as exact division by
1 MB = 1024·1024 bytes. -/
def mainSpeedOfSpec (totalBytes : ℕ) (elapsedSeconds : ℚ) : ℚ :=
  (totalBytes : ℚ) / (1024 * 1024) * compensationFactor * 8 / elapsedSeconds

/-- The abstracted network environment of one test run: result of the warm-up
burst's `eg.Wait()`, wall-clock span of the warm-up in seconds
(`fTime.Sub(sTime).Seconds()`), outcomes of the main-phase tasks, and the
main phase's elapsed seconds from loop start to last join. -/
structure PhaseEnv where
  warmUpErr : Option Err
  warmUpSpan : ℚ
  tasks : List TaskOutcome
  mainElapsed : ℚ
deriving DecidableEq, Repr

/-- The latency `s.Latency` converted to seconds, as `sTime.Add(s.Latency)` shifts the
start instant by the latency. -/
def latencySeconds (s : Server) : ℚ := (s.Latency : ℚ) / 1000000000

/-- Warm-up duration used by `downloadTestContext`:
`timeSpent := fTime.Sub(sTime.Add(s.Latency)).Seconds()`, and if that is
negative, fall back to the raw span `fTime.Sub(sTime).Seconds()`. -/
def dlWarmUpSeconds (s : Server) (span : ℚ) : ℚ :=
  let timeSpent := span - latencySeconds s
  if timeSpent < 0 then span else timeSpent

/-- Warm-up duration used by `uploadTestContext`:
`fTime.Sub(sTime.Add(s.Latency)).Seconds()`, with no negativity fallback. -/
def ulWarmUpSeconds (s : Server) (span : ℚ) : ℚ :=
  span - latencySeconds s

/-- The download warm-up payload suffix: 1 (MB) for librespeed, else
`dlSuffixes[2]` (jpg axis width). -/
def dlInitialSuffix (s : Server) : ℤ :=
  if s.SType = ServerType.LibrespeedServer then 1 else dlSuffixes.getD 2 0

/-- Download warm-up speed:
`wuSpeed := float64(streams) * suffixToMB(s.Type, suffix) * 8 / timeSpent`
with `streams = 10`. -/
def dlWuSpeed (s : Server) (span : ℚ) : ℚ :=
  10 * suffixToMB s.SType (dlInitialSuffix s) * 8 / dlWarmUpSeconds s span

/-- Upload warm-up speed: `wuSpeed := 2 * 1.0 * 8 / fTime.Sub(sTime.Add(s.Latency)).Seconds()`. -/
def ulWuSpeed (s : Server) (span : ℚ) : ℚ :=
  2 * 1.0 * 8 / ulWarmUpSeconds s span

/-- Go's `int(x)` conversion from float: truncation toward zero. -/
def truncToInt (x : ℚ) : ℤ := if 0 ≤ x then ⌊x⌋ else ⌈x⌉

/-- The body of `downloadTestContext`, with the network abstracted into `env`.  Returns
the updated server and the error result of the call (`none` = nil).  A
warm-up error is returned immediately, before `s.DLSpeed` is written; after a
successful warm-up the function always returns nil: the main-phase
`eg.Wait()` result is discarded by the source. -/
def downloadTestContext (s : Server) (savingMode : Bool) (duration : ℚ)
    (env : PhaseEnv) : Server × Option Err :=
  match env.warmUpErr with
  | some e => (s, some e)
  | none =>
    let wuSpeed := dlWuSpeed s env.warmUpSpan
    let sel := dlDecide savingMode wuSpeed
    let _suffix : ℤ :=
      if s.SType = ServerType.LibrespeedServer then
        truncToInt (wuSpeed / 8 / (sel.streams : ℚ) * duration)
      else dlSuffixes.getD sel.weight 0
    let dlSpeed : ℚ :=
      if sel.skip then wuSpeed
      else mainSpeed (totalTransferred env.tasks) env.mainElapsed
    ({ s with DLSpeed := dlSpeed }, none)

/-- The body of `uploadTestContext`, with the network abstracted into `env`, analogous to
`downloadTestContext`.  `sizeKB = ulSuffixes[weight]` parameterises the
requests and does not affect the returned state. -/
def uploadTestContext (s : Server) (savingMode : Bool) (_duration : ℚ)
    (env : PhaseEnv) : Server × Option Err :=
  match env.warmUpErr with
  | some e => (s, some e)
  | none =>
    let wuSpeed := ulWuSpeed s env.warmUpSpan
    let sel := ulDecide savingMode wuSpeed
    let _sizeKB : ℤ := ulSuffixes.getD sel.weight 0
    let ulSpeed : ℚ :=
      if sel.skip then wuSpeed
      else mainSpeed (totalTransferred env.tasks) env.mainElapsed
    ({ s with ULSpeed := ulSpeed }, none)

/-- The `for i := 0; i < 3; i++` loop of `PingTestContext`: each attempt
either fails (aborting the whole probe) or yields a round-trip span in
nanoseconds, and `l` is lowered to any strictly smaller span. -/
def pingLoop : List (Except Err ℤ) → ℤ → Except Err ℤ
  | [], l => Except.ok l
  | a :: rest, l =>
    match a with
    | Except.error e => Except.error e
    | Except.ok span => pingLoop rest (if span < l then span else l)

/-- Initial bound `l := time.Second * 10`, in nanoseconds. -/
def initialPingBound : ℤ := 10 * 1000000000

/-- The body of `PingTestContext`, with the three round trips abstracted as results
`a1 a2 a3` (span in nanoseconds, or a transport error).  On success it stores
`s.Latency = l.Nanoseconds() / 2` (Go truncating int64 division). -/
def PingTestContext (s : Server) (a1 a2 a3 : Except Err ℤ) : Server × Option Err :=
  match pingLoop [a1, a2, a3] initialPingBound with
  | Except.error e => (s, some e)
  | Except.ok l => ({ s with Latency := Int.tdiv l 2 }, none)

/-- Characters of `s` before the first occurrence of `sep`, the whole of `s`
when `sep` does not occur: `strings.Split(s, sep)[0]` for non-empty `sep`. -/
def sepHeadAux (sep : List Char) : List Char → List Char
  | [] => []
  | c :: cs => if sep.isPrefixOf (c :: cs) then [] else c :: sepHeadAux sep cs

/-- Model of `strings.Split(s, sep)[0]` for non-empty `sep`. -/
def splitFirst (s sep : String) : String :=
  String.mk (sepHeadAux sep.toList s.toList)

/-- URL construction `getDownloadURL` from the source. -/
def getDownloadURL (serverUrl : String) (serverType : ServerType) (suffix : ℤ) : String :=
  if serverType = ServerType.SpeedtestServer then
    splitFirst serverUrl "/upload.php" ++ "/random" ++ toString suffix ++ "x"
      ++ toString suffix ++ ".jpg"
  else
    serverUrl ++ "/garbage?cors=true&ckSize=" ++ toString suffix

/-- URL construction `getUploadURL` from the source. -/
def getUploadURL (serverUrl : String) (serverType : ServerType) : String :=
  if serverType = ServerType.SpeedtestServer then serverUrl
  else serverUrl ++ "/empty?cors=true&ckSize=10"

/-- URL construction `getPingURL` from the source. -/
def getPingURL (serverUrl : String) (serverType : ServerType) : String :=
  if serverType = ServerType.SpeedtestServer then
    splitFirst serverUrl "/upload.php" ++ "/latency.txt"
  else
    serverUrl ++ "/empty?cors=true&ckSize=1"

/-- Model of `strings.Repeat s n`: `n` copies of `s` concatenated. -/
def strRepeat (s : String) : ℕ → String
  | 0 => ""
  | n + 1 => s ++ strRepeat s n

/-- The `content` form value synthesised by `ulWarmUp` and `uploadRequest`:
`strings.Repeat("0123456789", sizeKB*100-51)`. -/
def ulContent (sizeKB : ℕ) : String :=
  strRepeat "0123456789" (sizeKB * 100 - 51)

theorem strRepeat_length (s : String) (n : ℕ) :
    (strRepeat s n).length = n * s.length := by
  induction n with
  | zero => simp [strRepeat]
  | succ k ih => simp [strRepeat, String.length_append, ih, Nat.succ_mul]; ring


/-! ### Shared helper lemmas and concrete fixtures -/

/-- A concrete classic-protocol server with zero prior results. -/
def s0 : Server :=
  ⟨"http://example.com/speedtest/upload.php", ServerType.SpeedtestServer, 0, 0, 0⟩

/-- A server whose configured latency (2 s) exceeds the warm-up spans used
against it. -/
def sLat2 : Server :=
  ⟨"http://example.com/speedtest/upload.php", ServerType.SpeedtestServer, 2000000000, 0, 0⟩

/-- An environment whose main phase transfers 1.5 MiB in one task within 1 s;
the warm-up span of 1 s puts the warm-up speed at 90 Mbps. -/
def envBytes : PhaseEnv := ⟨none, 1, [⟨1572864, false⟩], 1⟩

/-- An environment whose main-phase tasks all fail, contributing 0 bytes. -/
def envAllFail : PhaseEnv := ⟨none, 1, [⟨0, true⟩, ⟨0, true⟩], 10⟩

/-- An environment whose warm-up burst fails. -/
def envErr : PhaseEnv := ⟨some "connection refused", 1, [], 10⟩

theorem speedtest_ne_librespeed :
    (ServerType.SpeedtestServer = ServerType.LibrespeedServer) = False :=
  eq_false (by decide)

theorem if_lt_eq_min (span l : ℤ) : (if span < l then span else l) = min l span := by
  rcases lt_or_le span l with h | h
  · rw [if_pos h, min_eq_right h.le]
  · rw [if_neg (not_lt.mpr h), min_eq_left h]

theorem pingLoop_three (t1 t2 t3 l : ℤ) :
    pingLoop [Except.ok t1, Except.ok t2, Except.ok t3] l
      = Except.ok (min (min (min l t1) t2) t3) := by
  simp only [pingLoop, if_lt_eq_min]

theorem pingLatency_eq_tdiv (s : Server) (t1 t2 t3 : ℤ) :
    (PingTestContext s (Except.ok t1) (Except.ok t2) (Except.ok t3)).1.Latency
      = Int.tdiv (min (min (min initialPingBound t1) t2) t3) 2 := by
  simp [PingTestContext, pingLoop_three]

/-! ### Claim theorems -/

/-- Claim C1: stream count and payload weight are deterministic functions of
the warm-up bucket, the conservative flag and the direction, via the fixed
threshold ladders: download, non-conservative, 60 Mbps selects 32 streams and
weight 6, whose payload is `dlSuffixes[6] = 2500`; upload in conservative
(saving) mode selects streams 1 and weight 7 for every warm-up speed. -/
theorem selection_tables (w : ℚ) :
    dlDecide false 60 = ⟨32, 6, false⟩ ∧
    dlSuffixes.getD 6 0 = 2500 ∧
    ulDecide true w = ⟨1, 7, false⟩ := by
  refine ⟨by norm_num [dlDecide], by rfl, by simp [ulDecide]⟩

/-- Claim C2: when the warm-up speed is in the too-slow bucket (not above
2.5 Mbps) and conservative mode is off, the main phase is skipped — the
result does not depend on the main-phase environment — and the stored speed
equals the warm-up speed exactly, for download and upload alike. -/
theorem too_slow_reports_warmup (s : Server) (d : ℚ) (envD envU : PhaseEnv)
    (hD0 : envD.warmUpErr = none) (hU0 : envU.warmUpErr = none)
    (hD : ¬ (2.5 : ℚ) < dlWuSpeed s envD.warmUpSpan)
    (hU : ¬ (2.5 : ℚ) < ulWuSpeed s envU.warmUpSpan) :
    downloadTestContext s false d envD
      = ({ s with DLSpeed := dlWuSpeed s envD.warmUpSpan }, none) ∧
    uploadTestContext s false d envU
      = ({ s with ULSpeed := ulWuSpeed s envU.warmUpSpan }, none) := by
  have hD50 : ¬ (50 : ℚ) < dlWuSpeed s envD.warmUpSpan :=
    fun h => hD (lt_trans (by norm_num) h)
  have hD10 : ¬ (10 : ℚ) < dlWuSpeed s envD.warmUpSpan :=
    fun h => hD (lt_trans (by norm_num) h)
  have hD4 : ¬ (4 : ℚ) < dlWuSpeed s envD.warmUpSpan :=
    fun h => hD (lt_trans (by norm_num) h)
  have hU50 : ¬ (50 : ℚ) < ulWuSpeed s envU.warmUpSpan :=
    fun h => hU (lt_trans (by norm_num) h)
  have hU10 : ¬ (10 : ℚ) < ulWuSpeed s envU.warmUpSpan :=
    fun h => hU (lt_trans (by norm_num) h)
  have hU4 : ¬ (4 : ℚ) < ulWuSpeed s envU.warmUpSpan :=
    fun h => hU (lt_trans (by norm_num) h)
  constructor
  · unfold downloadTestContext
    rw [hD0]
    simp [dlDecide, hD, hD50, hD10, hD4]
  · unfold uploadTestContext
    rw [hU0]
    simp [ulDecide, hU, hU50, hU10, hU4]

/-- Witness for `too_slow_reports_warmup`: warm-up speed exactly 1 Mbps on
both directions; the stored speeds equal it. -/
theorem too_slow_reports_warmup_witness :
    downloadTestContext s0 false 10 ⟨none, 90, [], 10⟩
      = ({ s0 with DLSpeed := dlWuSpeed s0 90 }, none) ∧
    uploadTestContext s0 false 10 ⟨none, 16, [], 10⟩
      = ({ s0 with ULSpeed := ulWuSpeed s0 16 }, none) :=
  too_slow_reports_warmup s0 10 ⟨none, 90, [], 10⟩ ⟨none, 16, [], 10⟩ rfl rfl
    (by norm_num [dlWuSpeed, dlWarmUpSeconds, latencySeconds, suffixToMB,
      dlInitialSuffix, dlSuffixes, s0, speedtest_ne_librespeed])
    (by norm_num [ulWuSpeed, ulWarmUpSeconds, latencySeconds, s0, speedtest_ne_librespeed])

/-- Claim C3 as stated is false: the code floor-divides the byte counter to
whole mebibytes (`totalBytes.Load()/1024/1024` in int64 arithmetic) before
scaling, so a main phase that transfers 1.5 MiB in 1 s reports 8.32 Mbps, not
the 12.48 Mbps given by exact division of totalBytes by 1 MB. -/
theorem main_speed_floors_megabytes_cex :
    (downloadTestContext s0 false 1 envBytes).1.DLSpeed
      ≠ mainSpeedOfSpec (totalTransferred envBytes.tasks) envBytes.mainElapsed := by
  norm_num [downloadTestContext, envBytes, dlWuSpeed, dlWarmUpSeconds, latencySeconds,
    suffixToMB, dlInitialSuffix, dlSuffixes, s0, dlDecide, mainSpeed, mainSpeedOfSpec,
    totalTransferred, compensationFactor, speedtest_ne_librespeed]

/-- Claim C3, amended: when the main phase runs (the selection does not skip),
the stored speed equals `⌊totalBytes / 2^20⌋ × 1.04 × 8 / actualElapsedSeconds`
— the aggregate byte counter is truncated to whole mebibytes — with the
elapsed seconds taken from loop start to last join. -/
theorem main_phase_speed_formula (s : Server) (sm : Bool) (d : ℚ) (envD envU : PhaseEnv)
    (hD0 : envD.warmUpErr = none) (hU0 : envU.warmUpErr = none)
    (hD : (dlDecide sm (dlWuSpeed s envD.warmUpSpan)).skip = false)
    (hU : (ulDecide sm (ulWuSpeed s envU.warmUpSpan)).skip = false) :
    (downloadTestContext s sm d envD).1.DLSpeed
      = mainSpeed (totalTransferred envD.tasks) envD.mainElapsed ∧
    (uploadTestContext s sm d envU).1.ULSpeed
      = mainSpeed (totalTransferred envU.tasks) envU.mainElapsed := by
  constructor
  · unfold downloadTestContext
    rw [hD0]
    simp [hD]
  · unfold uploadTestContext
    rw [hU0]
    simp [hU]

/-- Witness for `main_phase_speed_formula` at warm-up speeds 90 and 16 Mbps. -/
theorem main_phase_speed_formula_witness :
    (downloadTestContext s0 false 1 envBytes).1.DLSpeed
      = mainSpeed (totalTransferred envBytes.tasks) envBytes.mainElapsed ∧
    (uploadTestContext s0 false 1 envBytes).1.ULSpeed
      = mainSpeed (totalTransferred envBytes.tasks) envBytes.mainElapsed :=
  main_phase_speed_formula s0 false 1 envBytes envBytes rfl rfl
    (by norm_num [dlDecide, dlWuSpeed, dlWarmUpSeconds, latencySeconds, suffixToMB,
      dlInitialSuffix, dlSuffixes, s0, envBytes, speedtest_ne_librespeed])
    (by norm_num [ulDecide, ulWuSpeed, ulWarmUpSeconds, latencySeconds, s0, envBytes, speedtest_ne_librespeed])

/-- Claim C4: only the download warm-up falls back to the raw span when the
configured latency exceeds it.  With latency 2 s and a 1 s warm-up span, the
download warm-up uses 1 s, but the upload warm-up uses 1 − 2 = −1 s, computes
a warm-up speed of −16 Mbps, and the test stores that negative speed. -/
theorem upload_warmup_lacks_fallback :
    dlWarmUpSeconds sLat2 1 = 1 ∧
    ulWarmUpSeconds sLat2 1 = -1 ∧
    ulWuSpeed sLat2 1 = -16 ∧
    (uploadTestContext sLat2 false 10 ⟨none, 1, [], 10⟩).1.ULSpeed = -16 := by
  refine ⟨?_, ?_, ?_, ?_⟩ <;>
    norm_num [dlWarmUpSeconds, ulWarmUpSeconds, ulWuSpeed, latencySeconds, sLat2,
      uploadTestContext, ulDecide, speedtest_ne_librespeed]

/-- Claim C5 as stated is false: at `sizeKB = 1` the decoded form value has
`(1·100 − 51) · 10 = 490` characters, not `1 · 1000`. -/
theorem ul_payload_length_cex : (ulContent 1).length ≠ 1 * 1000 := by
  rw [ulContent, strRepeat_length]
  decide

/-- Claim C5, amended: for every `sizeKB ≥ 1` the decoded form value is the
10-character block `"0123456789"` repeated `sizeKB·100 − 51` times, so its
length is `sizeKB·1000 − 510` characters. -/
theorem ul_payload_length (k : ℕ) (hk : 1 ≤ k) :
    (ulContent k).length = k * 1000 - 510 ∧
    ulContent k = strRepeat "0123456789" (k * 100 - 51) := by
  refine ⟨?_, rfl⟩
  rw [ulContent, strRepeat_length]
  have h10 : "0123456789".length = 10 := rfl
  rw [h10]
  omega

/-- Witness for `ul_payload_length` at `sizeKB = 1`: 490 characters. -/
theorem ul_payload_length_witness :
    (ulContent 1).length = 1 * 1000 - 510 ∧
    ulContent 1 = strRepeat "0123456789" (1 * 100 - 51) :=
  ul_payload_length 1 (by decide)

/-- Claim C6: the source discards the main-phase `eg.Wait()` result, so a main
phase in which every task fails still returns nil and stores the near-zero
speed computed from zero transferred bytes, for download and upload alike. -/
theorem all_failed_tasks_return_nil :
    envAllFail.tasks.all TaskOutcome.failed = true ∧
    (downloadTestContext s0 false 10 envAllFail).2 = none ∧
    (downloadTestContext s0 false 10 envAllFail).1.DLSpeed = 0 ∧
    (uploadTestContext s0 false 10 envAllFail).2 = none ∧
    (uploadTestContext s0 false 10 envAllFail).1.ULSpeed = 0 := by
  refine ⟨by rfl, ?_, ?_, ?_, ?_⟩ <;>
    norm_num [downloadTestContext, uploadTestContext, envAllFail, dlWuSpeed, ulWuSpeed,
      dlWarmUpSeconds, ulWarmUpSeconds, latencySeconds, suffixToMB, dlInitialSuffix,
      dlSuffixes, s0, dlDecide, ulDecide, mainSpeed, totalTransferred,
      speedtest_ne_librespeed]

/-- Claim C7: whenever an entry point returns an error, the corresponding
descriptor field keeps its previous value — `DLSpeed` for the download test,
`ULSpeed` for the upload test, `Latency` for the ping test. -/
theorem error_preserves_previous_result (s : Server) (sm : Bool) (d : ℚ)
    (env : PhaseEnv) (a1 a2 a3 : Except Err ℤ) :
    ((downloadTestContext s sm d env).2.isSome →
      (downloadTestContext s sm d env).1.DLSpeed = s.DLSpeed) ∧
    ((uploadTestContext s sm d env).2.isSome →
      (uploadTestContext s sm d env).1.ULSpeed = s.ULSpeed) ∧
    ((PingTestContext s a1 a2 a3).2.isSome →
      (PingTestContext s a1 a2 a3).1.Latency = s.Latency) := by
  refine ⟨?_, ?_, ?_⟩
  · cases hE : env.warmUpErr <;> simp [downloadTestContext, hE]
  · cases hE : env.warmUpErr <;> simp [uploadTestContext, hE]
  · cases a1 <;> cases a2 <;> cases a3 <;> simp [PingTestContext, pingLoop]

/-- Witness for `error_preserves_previous_result`: a failed warm-up and a
failed first ping attempt leave the fields of `s0` at their prior values. -/
theorem error_preserves_previous_result_witness :
    (downloadTestContext s0 false 1 envErr).1.DLSpeed = s0.DLSpeed ∧
    (uploadTestContext s0 false 1 envErr).1.ULSpeed = s0.ULSpeed ∧
    (PingTestContext s0 (Except.error "connection refused") (Except.ok 5)
        (Except.ok 5)).1.Latency = s0.Latency :=
  ⟨(error_preserves_previous_result s0 false 1 envErr (Except.error "connection refused")
      (Except.ok 5) (Except.ok 5)).1 (by rfl),
   (error_preserves_previous_result s0 false 1 envErr (Except.error "connection refused")
      (Except.ok 5) (Except.ok 5)).2.1 (by rfl),
   (error_preserves_previous_result s0 false 1 envErr (Except.error "connection refused")
      (Except.ok 5) (Except.ok 5)).2.2 (by rfl)⟩

/-- Claim C8 as stated is false: with three round trips of 20 s each, the
recorded latency is 5 s (the initial 10 s bound, halved), not
`min(t1,t2,t3)/2 = 10 s`. -/
theorem ping_latency_cap_cex :
    (PingTestContext s0 (Except.ok 20000000000) (Except.ok 20000000000)
        (Except.ok 20000000000)).1.Latency
      ≠ min (min (20000000000 : ℤ) 20000000000) 20000000000 / 2 := by
  decide

/-- Claim C8, amended: after a successful ping test with spans `t1 t2 t3`, the
recorded latency is `min(10 s, t1, t2, t3) / 2` — the minimum is taken against
the initial 10-second bound — and it is never negative for positive spans. -/
theorem ping_latency_min_with_bound (s : Server) (t1 t2 t3 : ℤ)
    (h1 : 0 < t1) (h2 : 0 < t2) (h3 : 0 < t3) :
    (PingTestContext s (Except.ok t1) (Except.ok t2) (Except.ok t3)).1.Latency
      = min (min (min initialPingBound t1) t2) t3 / 2 ∧
    0 ≤ (PingTestContext s (Except.ok t1) (Except.ok t2) (Except.ok t3)).1.Latency := by
  have hm : 0 ≤ min (min (min initialPingBound t1) t2) t3 :=
    le_min (le_min (le_min (by norm_num [initialPingBound]) h1.le) h2.le) h3.le
  rw [pingLatency_eq_tdiv, Int.tdiv_eq_ediv hm (by norm_num)]
  exact ⟨rfl, Int.ediv_nonneg hm (by norm_num)⟩

/-- Witness for `ping_latency_min_with_bound` at 1 ns spans: latency 0. -/
theorem ping_latency_min_with_bound_witness :
    (PingTestContext s0 (Except.ok 1) (Except.ok 1) (Except.ok 1)).1.Latency
      = min (min (min initialPingBound 1) 1) 1 / 2 ∧
    0 ≤ (PingTestContext s0 (Except.ok 1) (Except.ok 1) (Except.ok 1)).1.Latency :=
  ping_latency_min_with_bound s0 1 1 1 (by decide) (by decide) (by decide)

/-- Claim C9: classic download URLs replace the `/upload.php` suffix with the
numbered square-jpg resource, and lightweight ones append the garbage query
endpoint: the two round-trip examples hold. -/
theorem download_url_roundtrip :
    getDownloadURL "http://x/upload.php" ServerType.SpeedtestServer 750
      = "http://x/random750x750.jpg" ∧
    getDownloadURL "http://y" ServerType.LibrespeedServer 5
      = "http://y/garbage?cors=true&ckSize=5" :=
  ⟨rfl, rfl⟩

/-- Claim C10: the recorded latency of a successful ping test never exceeds
5 s, because each sample is taken as a minimum against the initial 10 s bound
before halving; if all three round trips take at least 10 s the stored latency
is exactly 5 s. -/
theorem ping_latency_at_most_5s (s : Server) (t1 t2 t3 : ℤ)
    (h1 : 0 ≤ t1) (h2 : 0 ≤ t2) (h3 : 0 ≤ t3) :
    (PingTestContext s (Except.ok t1) (Except.ok t2) (Except.ok t3)).1.Latency
      ≤ 5000000000 ∧
    (10000000000 ≤ t1 → 10000000000 ≤ t2 → 10000000000 ≤ t3 →
      (PingTestContext s (Except.ok t1) (Except.ok t2) (Except.ok t3)).1.Latency
        = 5000000000) := by
  have hm : 0 ≤ min (min (min initialPingBound t1) t2) t3 :=
    le_min (le_min (le_min (by norm_num [initialPingBound]) h1) h2) h3
  have hB : initialPingBound = 10000000000 := rfl
  rw [pingLatency_eq_tdiv, Int.tdiv_eq_ediv hm (by norm_num), hB]
  constructor
  · omega
  · intro g1 g2 g3
    omega

/-- Witness for `ping_latency_at_most_5s`: three 10 s round trips record
exactly 5 s. -/
theorem ping_latency_at_most_5s_witness :
    (PingTestContext s0 (Except.ok 10000000000) (Except.ok 10000000000)
        (Except.ok 10000000000)).1.Latency = 5000000000 :=
  (ping_latency_at_most_5s s0 10000000000 10000000000 10000000000
    (by decide) (by decide) (by decide)).2 (by decide) (by decide) (by decide)

end Speedtest
